import Mathlib

/-!
Shallow embedding of the proxy/slave execution subsystem of
`mcp-server/server.js` (mr-pilot).  The dispatcher ("proxy") side keeps a
single active worker WebSocket (`connectedSlaveWs`), a map of pending
relayed requests (`pendingProxyRequests`), and per-channel authentication
state; the worker ("slave") side keeps an outbound client connection with
a fixed 5-second reconnect loop.  All handlers below are direct
translations of the event callbacks in `server.js`; timers are modelled as
explicit events whose callbacks re-check the conditions the source
callbacks check.
-/

namespace MrPilot

/-- A JSON-RPC id value, as carried in the `id` field of wire messages
(numbers or strings; an absent or null id is `Option.none` at use sites). -/
inductive JsonId where
  | num : Int → JsonId
  | str : String → JsonId
deriving DecidableEq, Repr

/-- JavaScript truthiness of an id value: `0` and `""` are falsy. -/
def JsonId.truthy : JsonId → Bool
  | .num n => n != 0
  | .str s => s != ""

/-- JavaScript truthiness of a possibly-absent id (`undefined`/`null` falsy). -/
def idTruthy : Option JsonId → Bool
  | some i => i.truthy
  | none => false

/-- JavaScript truthiness of a possibly-absent string field. -/
def strTruthy : Option String → Bool
  | some s => s != ""
  | none => false

/-- The `params` object of a JSON-RPC message, keeping only the parts the
server reads (`params.name` for tools/call; the rest opaque). -/
structure ParamsObj where
  name : Option String
  arguments : String
deriving DecidableEq, Repr

/-- A parsed wire message (result of `JSON.parse` on channel data), with the
fields the server's handlers inspect; `payload` stands for the remaining
fields (result/error bodies) carried verbatim. -/
structure WireMsg where
  type : Option String
  slaveCode : Option String
  jsonrpc : Option String
  method : Option String
  params : Option ParamsObj
  id : Option JsonId
  payload : String
deriving DecidableEq, Repr

/-- WebSocket readiness: `opened` is `WebSocket.OPEN`; calling `close()`
moves to `closingWs`; the `close` event moves to `closedWs`. -/
inductive ReadyState where
  | opened
  | closingWs
  | closedWs
deriving DecidableEq, Repr

/-- Per-channel state on the dispatcher side: the connection callback's
`authenticated` flag and `authTimeout` timer, the socket's ready state,
and the close code/reason recorded when `ws.close(code, reason)` ran. -/
structure ChannelState where
  authenticated : Bool
  readyState : ReadyState
  authTimerArmed : Bool
  closeInfo : Option (Nat × String)
deriving DecidableEq, Repr

/-- Dispatcher configuration: `PROXY_MODE` and the `SLAVE_CODES` whitelist. -/
structure Config where
  proxyMode : Bool
  slaveCodes : List String
deriving Repr

/-- Dispatcher ("proxy") state: channels keyed by an abstract socket id,
the `connectedSlaveWs` reference, and `pendingProxyRequests` as an
association list from request id to the caller's continuation token. -/
structure ProxyState where
  channels : Nat → Option ChannelState
  connectedSlaveWs : Option Nat
  pendingProxyRequests : List (JsonId × Nat)

/-- The dispatcher's startup state: no channels, no active slave, empty map. -/
def initState : ProxyState :=
  { channels := fun _ => none, connectedSlaveWs := none, pendingProxyRequests := [] }

/-- Point update of the channel table. -/
def setCh (f : Nat → Option ChannelState) (k : Nat) (v : ChannelState) :
    Nat → Option ChannelState :=
  fun x => if x = k then some v else f x

/-- `Map.get` on the pending-request association list. -/
def mapGet (m : List (JsonId × Nat)) (k : JsonId) : Option Nat :=
  match m with
  | [] => none
  | (k2, v) :: rest => if k2 = k then some v else mapGet rest k

/-- `Map.has`. -/
def mapHas (m : List (JsonId × Nat)) (k : JsonId) : Bool :=
  (mapGet m k).isSome

/-- `Map.set`: replace an existing binding or append a new one. -/
def mapSet (m : List (JsonId × Nat)) (k : JsonId) (v : Nat) :
    List (JsonId × Nat) :=
  match m with
  | [] => [(k, v)]
  | (k2, v2) :: rest => if k2 = k then (k, v) :: rest else (k2, v2) :: mapSet rest k v

/-- `Map.delete`: remove the binding for `k`. -/
def mapDelete (m : List (JsonId × Nat)) (k : JsonId) : List (JsonId × Nat) :=
  match m with
  | [] => []
  | (k2, v2) :: rest => if k2 = k then mapDelete rest k else (k2, v2) :: mapDelete rest k

/-- Messages the dispatcher writes to a worker channel. -/
inductive OutMsg where
  | authSuccess
  | authFailed
  | rpcRequest (method : String) (params : Option ParamsObj) (id : JsonId)
deriving DecidableEq, Repr

/-- Observable effects of a dispatcher event handler. -/
inductive Effect where
  | send (ch : Nat) (m : OutMsg)
  | resolveWith (caller : Nat) (reply : WireMsg)
  | rejectWith (caller : Nat) (err : String)
  | armReplyTimer (rid : JsonId) (ms : Nat)
  | immediateError (caller : Nat) (code : Int) (msg : String) (id : Option JsonId)
  | logMsg (text : String)
deriving DecidableEq, Repr

/-- `ws.close(code, reason)` as seen from the dispatcher's state: on an open
socket it records the code/reason and moves to `closingWs`; on a socket
already closing or closed it is a no-op. -/
def wsClose (s : ProxyState) (ch : Nat) (code : Nat) (reason : String) : ProxyState :=
  match s.channels ch with
  | some cs =>
      if cs.readyState = ReadyState.opened then
        { s with
          channels :=
            setCh s.channels ch
              ({ cs with readyState := ReadyState.closingWs, closeInfo := some (code, reason) }) }
      else s
  | none => s

/-- `proxyWsServer.on('connection', ...)` prologue: a fresh channel starts
unauthenticated with its 10-second auth timer armed. -/
def onConnection (s : ProxyState) (ch : Nat) : ProxyState :=
  { s with
    channels :=
      setCh s.channels ch
        ({ authenticated := false, readyState := ReadyState.opened,
           authTimerArmed := true, closeInfo := none }) }

/-- The 10-second `authTimeout` callback: if the timer was not cleared and
the channel is still unauthenticated, close it with code 4000
"Authentication timeout". -/
def onAuthTimerFire (s : ProxyState) (ch : Nat) : ProxyState :=
  match s.channels ch with
  | some cs =>
      if cs.authTimerArmed && !cs.authenticated then
        wsClose s ch 4000 "Authentication timeout"
      else s
  | none => s

/-- `ws.on('message', ...)` on the dispatcher: the authentication branch for
unauthenticated channels, then the reply-correlation branch for
authenticated ones, translated line by line from `server.js` 819-869. -/
def onChannelMessage (cfg : Config) (s : ProxyState) (ch : Nat) (msg : WireMsg) :
    ProxyState × List Effect :=
  match s.channels ch with
  | none => (s, [])
  | some cs =>
      if !cs.authenticated then
        if msg.type == some "auth" && strTruthy msg.slaveCode then
          if cfg.slaveCodes.contains (msg.slaveCode.getD "") then
            let s1 : ProxyState :=
              { s with
                channels :=
                  setCh s.channels ch
                    ({ cs with authenticated := true, authTimerArmed := false }) }
            let s2 : ProxyState :=
              match s1.connectedSlaveWs with
              | some old =>
                  match s1.channels old with
                  | some ocs =>
                      if ocs.readyState = ReadyState.opened then
                        wsClose s1 old 4001 "New slave connected"
                      else s1
                  | none => s1
              | none => s1
            ({ s2 with connectedSlaveWs := some ch }, [Effect.send ch OutMsg.authSuccess])
          else
            (wsClose s ch 4002 "Authentication failed", [Effect.send ch OutMsg.authFailed])
        else
          (wsClose s ch 4003 "Invalid authentication message", [])
      else
        if msg.jsonrpc == some "2.0" && idTruthy msg.id then
          let rid := msg.id.getD (JsonId.num 0)
          match mapGet s.pendingProxyRequests rid with
          | some caller =>
              ({ s with pendingProxyRequests := mapDelete s.pendingProxyRequests rid },
               [Effect.resolveWith caller msg])
          | none =>
              (s, [Effect.logMsg "Received response for unknown request id"])
        else
          (s, [])

/-- `ws.on('close', ...)` on the dispatcher: mark the socket closed, clear
`connectedSlaveWs` when the closing channel was the active one, and clear
the auth timer. -/
def onChannelClose (s : ProxyState) (ch : Nat) : ProxyState :=
  match s.channels ch with
  | none => s
  | some cs =>
      let s1 : ProxyState :=
        { s with
          channels :=
            setCh s.channels ch
              ({ cs with readyState := ReadyState.closedWs, authTimerArmed := false }) }
      if s1.connectedSlaveWs = some ch then { s1 with connectedSlaveWs := none } else s1

/-- `ws.on('error', ...)` on the dispatcher: the handler only logs; no state
changes, no continuation is resolved or rejected. -/
def onChannelError (s : ProxyState) (ch : Nat) : ProxyState × List Effect :=
  (s, [Effect.logMsg ("Slave WebSocket error on channel " ++ toString ch)])

/-- The `connectedSlaveWs && connectedSlaveWs.readyState === WebSocket.OPEN`
test of `dispatchMethod`, returning the active open socket when it holds. -/
def activeOpenWs (s : ProxyState) : Option Nat :=
  match s.connectedSlaveWs with
  | some ws =>
      match s.channels ws with
      | some c => if c.readyState = ReadyState.opened then some ws else none
      | none => none
  | none => none

/-- The proxy-mode branches of `dispatchMethod` (server.js 406-447): with an
open active slave, register a pending request under `id || randomUUID()`,
send the serialized request, and arm the 300000 ms timeout; in proxy mode
with no slave, return the synchronous -32000 "No slave server connected to
proxy" error without touching any state.  `fresh` stands for the UUID
`crypto.randomUUID()` would produce; `caller` is the promise continuation. -/
def dispatchProxy (cfg : Config) (s : ProxyState) (method : String)
    (params : Option ParamsObj) (id : Option JsonId) (fresh : String) (caller : Nat) :
    ProxyState × List Effect :=
  match activeOpenWs s with
  | some ws =>
      if cfg.proxyMode then
        let requestId : JsonId := if idTruthy id then id.getD (JsonId.num 0) else JsonId.str fresh
        ({ s with pendingProxyRequests := mapSet s.pendingProxyRequests requestId caller },
         [Effect.send ws (OutMsg.rpcRequest method params requestId),
          Effect.armReplyTimer requestId 300000])
      else (s, [])
  | none =>
      if cfg.proxyMode then
        (s, [Effect.immediateError caller (-32000) "No slave server connected to proxy" id])
      else (s, [])

/-- The 5-minute proxy timeout callback (server.js 427-432): if the request
id is still pending, delete it and reject the captured continuation with
"Proxy request timeout"; otherwise do nothing. -/
def onReplyTimerFire (s : ProxyState) (rid : JsonId) (caller : Nat) :
    ProxyState × List Effect :=
  if mapHas s.pendingProxyRequests rid then
    ({ s with pendingProxyRequests := mapDelete s.pendingProxyRequests rid },
     [Effect.rejectWith caller "Proxy request timeout"])
  else (s, [])

/-- The event classes driving the dispatcher's state (channel lifecycle,
channel messages, timer callbacks and front-end dispatch requests). -/
inductive Event where
  | connect (ch : Nat)
  | message (ch : Nat) (msg : WireMsg)
  | authTimer (ch : Nat)
  | closeEvt (ch : Nat)
  | errorEvt (ch : Nat)
  | dispatch (method : String) (params : Option ParamsObj) (id : Option JsonId)
      (fresh : String) (caller : Nat)
  | replyTimer (rid : JsonId) (caller : Nat)

/-- One step of the dispatcher's event loop. -/
def step (cfg : Config) (s : ProxyState) : Event → ProxyState × List Effect
  | Event.connect ch => (onConnection s ch, [])
  | Event.message ch m => onChannelMessage cfg s ch m
  | Event.authTimer ch => (onAuthTimerFire s ch, [])
  | Event.closeEvt ch => (onChannelClose s ch, [])
  | Event.errorEvt ch => onChannelError s ch
  | Event.dispatch m p id f c => dispatchProxy cfg s m p id f c
  | Event.replyTimer rid c => onReplyTimerFire s rid c

/-- A run of the dispatcher over a sequence of events, accumulating effects. -/
def run (cfg : Config) (s : ProxyState) : List Event → ProxyState × List Effect
  | [] => (s, [])
  | e :: rest =>
      let p := step cfg s e
      let q := run cfg p.1 rest
      (q.1, p.2 ++ q.2)

/-! ### Slave (worker) side -/

/-- The body of a standalone JSON-RPC response, keeping the shape of each
return of `dispatchMethod`'s standalone branches (server.js 449-557);
tool outputs themselves come from external handlers and are abstracted by
the `runTool` oracle below. -/
inductive RespBody where
  | resultToolsList
  | resultToolCall (isError : Bool) (text : String)
  | resultInitialize
  | errorBody (code : Int) (message : String)
deriving DecidableEq, Repr

/-- A JSON-RPC response object `{jsonrpc, result|error, id}`. -/
structure Response where
  jsonrpc : String
  body : RespBody
  id : Option JsonId
deriving DecidableEq, Repr

/-- The standalone branches of `dispatchMethod` (server.js 449-557), used by
a slave to execute a relayed invocation locally.  `toolNames` is the key
set of the `tools` table and `runTool` abstracts the external tool
handlers (`tools[name].handler`), returning their result text or thrown
error message.  Every branch returns the caller-supplied `id` verbatim. -/
def dispatchLocal (toolNames : List String)
    (runTool : String → String → Except String String)
    (method : String) (params : ParamsObj) (id : Option JsonId) : Response :=
  if method = "tools/list" then
    { jsonrpc := "2.0", body := RespBody.resultToolsList, id := id }
  else if method = "tools/call" then
    let toolName := params.name.getD "undefined"
    if toolNames.contains toolName then
      match runTool toolName params.arguments with
      | Except.ok r =>
          { jsonrpc := "2.0", body := RespBody.resultToolCall false r, id := id }
      | Except.error e =>
          { jsonrpc := "2.0", body := RespBody.resultToolCall true ("Error: " ++ e), id := id }
    else
      { jsonrpc := "2.0", body := RespBody.errorBody (-32601) ("Unknown tool: " ++ toolName),
        id := id }
  else if method = "initialize" then
    { jsonrpc := "2.0", body := RespBody.resultInitialize, id := id }
  else
    { jsonrpc := "2.0", body := RespBody.errorBody (-32601) ("Method not found: " ++ method),
      id := id }

/-- Slave-side client state: whether `slaveWsClient` currently holds a
socket (it is set to null in the close handler before rescheduling). -/
structure SlaveState where
  wsConnected : Bool
deriving DecidableEq, Repr

/-- Events delivered to the slave's WebSocket client callbacks. -/
inductive SlaveEvent where
  | openedEvt
  | msgEvt (m : WireMsg)
  | closedEvt
  | erroredEvt
deriving DecidableEq, Repr

/-- Observable effects of the slave's handlers. -/
inductive SlaveEffect where
  | sendAuthMsg (code : String)
  | closeSelf
  | scheduleReconnect (ms : Nat)
  | sendToProxy (r : Response)
  | slaveLog (text : String)
deriving DecidableEq, Repr

/-- One step of the slave client's event handling, translated from
`initSlaveClient` (server.js 903-956): on open send the auth message with
the configured `SLAVE_CODE`; on `auth_failed` close the channel; on a
JSON-RPC request execute it locally and send the response back; on close
null the client reference and schedule `connect` again in 5000 ms. -/
def slaveStep (code : String) (toolNames : List String)
    (runTool : String → String → Except String String) :
    SlaveState → SlaveEvent → SlaveState × List SlaveEffect
  | s, SlaveEvent.openedEvt => (s, [SlaveEffect.sendAuthMsg code])
  | s, SlaveEvent.msgEvt m =>
      if m.type == some "auth_success" then (s, [])
      else if m.type == some "auth_failed" then (s, [SlaveEffect.closeSelf])
      else if m.jsonrpc == some "2.0" && strTruthy m.method then
        (s, [SlaveEffect.sendToProxy
              (dispatchLocal toolNames runTool (m.method.getD "")
                (m.params.getD { name := none, arguments := "" }) m.id)])
      else (s, [])
  | _, SlaveEvent.closedEvt =>
      ({ wsConnected := false }, [SlaveEffect.scheduleReconnect 5000])
  | s, SlaveEvent.erroredEvt => (s, [SlaveEffect.slaveLog "WebSocket error"])

/-- A run of the slave client over a sequence of events. -/
def slaveRun (code : String) (toolNames : List String)
    (runTool : String → String → Except String String) (s : SlaveState) :
    List SlaveEvent → SlaveState × List SlaveEffect
  | [] => (s, [])
  | e :: rest =>
      let p := slaveStep code toolNames runTool s e
      let q := slaveRun code toolNames runTool p.1 rest
      (q.1, p.2 ++ q.2)

/-- The reconnect delays scheduled in a list of slave effects. -/
def reconnectDelays (effs : List SlaveEffect) : List Nat :=
  effs.filterMap fun e =>
    match e with
    | SlaveEffect.scheduleReconnect ms => some ms
    | _ => none

/-! ### Derived predicates and fixtures used by the statements -/

/-- Whether an effect list rejects some caller's continuation. -/
def hasReject (effs : List Effect) : Bool :=
  effs.any fun e =>
    match e with
    | Effect.rejectWith _ _ => true
    | _ => false

/-- Whether an effect list resolves some caller's continuation. -/
def hasResolve (effs : List Effect) : Bool :=
  effs.any fun e =>
    match e with
    | Effect.resolveWith _ _ => true
    | _ => false

/-- Whether an effect writes a relayed invocation to channel `ch`. -/
def isRpcSendTo (ch : Nat) : Effect → Bool
  | Effect.send c (OutMsg.rpcRequest _ _ _) => c == ch
  | _ => false

/-- Whether an event is a whitelisted authentication message from channel
`ch` (the exact condition of the auth-success branch of the dispatcher). -/
def isValidAuthFrom (cfg : Config) (ch : Nat) : Event → Bool
  | Event.message c m =>
      c == ch && (m.type == some "auth") && strTruthy m.slaveCode &&
        cfg.slaveCodes.contains (m.slaveCode.getD "")
  | _ => false

/-- The channel `ch` has been closed by the supersession path
(`ws.close(4001, 'New slave connected')`). -/
def closedSuperseded (t : ProxyState) (ch : Nat) : Bool :=
  match t.channels ch with
  | some cs => cs.closeInfo == some (4001, "New slave connected")
  | none => false

/-- The wire message a worker sends to authenticate with `code`. -/
def authWire (code : String) : WireMsg :=
  { type := some "auth", slaveCode := some code, jsonrpc := none, method := none,
    params := none, id := none, payload := "" }

/-- The dispatcher-side events generated by a sequence of workers, each
opening a channel and immediately authenticating. -/
def authEvents : List (Nat × String) → List Event
  | [] => []
  | p :: rest => Event.connect p.1 :: Event.message p.1 (authWire p.2) :: authEvents rest

/-- Channel state right after the connection callback installed it. -/
def freshChannel : ChannelState :=
  { authenticated := false, readyState := ReadyState.opened,
    authTimerArmed := true, closeInfo := none }

/-- Channel state right after a successful authentication. -/
def authedChannel : ChannelState :=
  { authenticated := true, readyState := ReadyState.opened,
    authTimerArmed := false, closeInfo := none }

/-- The state of a previously-active channel after the supersession close. -/
def supersededOf (ocs : ChannelState) : ChannelState :=
  { ocs with readyState := ReadyState.closingWs,
             closeInfo := some (4001, "New slave connected") }

/-- The channel id of the last pair in an authentication sequence. -/
def lastId (pairs : List (Nat × String)) : Nat :=
  (pairs.getLast?.getD (0, "")).1

/-- A concrete dispatcher configuration for counterexamples and witnesses. -/
def cfgC : Config := { proxyMode := true, slaveCodes := ["code1", "code2"] }

/-- A concrete dispatcher state with one authenticated active channel and
one in-flight pending request, used for the write-error scenario. -/
def s6 : ProxyState :=
  { channels := setCh (fun _ => none) 0 authedChannel,
    connectedSlaveWs := some 0,
    pendingProxyRequests := [(JsonId.str "r1", 7)] }

/-- A concrete dispatcher state in which channel 0 was superseded (still
authenticated, socket closing) and channel 1 is the active channel, with
a pending request under id "x". -/
def s7 : ProxyState :=
  { channels :=
      setCh (setCh (fun _ => none) 0 (supersededOf authedChannel)) 1 authedChannel,
    connectedSlaveWs := some 1,
    pendingProxyRequests := [(JsonId.str "x", 5)] }

/-- A concrete reply message bearing correlation id "x". -/
def replyX : WireMsg :=
  { type := none, slaveCode := none, jsonrpc := some "2.0", method := none,
    params := none, id := some (JsonId.str "x"), payload := "result" }

/-! ### Association-list lemmas -/

theorem mapGet_mapSet_self (m : List (JsonId × Nat)) (k : JsonId) (v : Nat) :
    mapGet (mapSet m k v) k = some v := by
  induction m with
  | nil => simp [mapSet, mapGet]
  | cons p rest ih =>
      obtain ⟨k2, v2⟩ := p
      by_cases h : k2 = k
      · simp [mapSet, h, mapGet]
      · simp [mapSet, h, mapGet, ih]

theorem mapGet_mapSet_ne (m : List (JsonId × Nat)) (k k' : JsonId) (v : Nat)
    (h : k' ≠ k) : mapGet (mapSet m k v) k' = mapGet m k' := by
  have h' : ¬ k = k' := fun hh => h hh.symm
  induction m with
  | nil => simp [mapSet, mapGet, h']
  | cons p rest ih =>
      obtain ⟨k2, v2⟩ := p
      by_cases h2 : k2 = k
      · subst h2
        simp [mapSet, mapGet, h']
      · simp [mapSet, h2, mapGet, ih]

theorem mapGet_mapDelete_self (m : List (JsonId × Nat)) (k : JsonId) :
    mapGet (mapDelete m k) k = none := by
  induction m with
  | nil => simp [mapDelete, mapGet]
  | cons p rest ih =>
      obtain ⟨k2, v2⟩ := p
      by_cases h : k2 = k
      · simp [mapDelete, h, ih]
      · simp [mapDelete, h, mapGet, ih]

theorem mapGet_mapDelete_ne (m : List (JsonId × Nat)) (k k' : JsonId)
    (h : k' ≠ k) : mapGet (mapDelete m k) k' = mapGet m k' := by
  have h' : ¬ k = k' := fun hh => h hh.symm
  induction m with
  | nil => simp [mapDelete]
  | cons p rest ih =>
      obtain ⟨k2, v2⟩ := p
      by_cases h2 : k2 = k
      · subst h2
        simp [mapDelete, mapGet, h', ih]
      · simp [mapDelete, h2, mapGet, ih]

theorem mapHas_of_get (m : List (JsonId × Nat)) (k : JsonId) (v : Nat)
    (h : mapGet m k = some v) : mapHas m k = true := by
  simp [mapHas, h]

theorem mapHas_delete_self (m : List (JsonId × Nat)) (k : JsonId) :
    mapHas (mapDelete m k) k = false := by
  simp [mapHas, mapGet_mapDelete_self]

/-! ### Claim theorems -/

theorem onChannelMessage_reply_found (cfg : Config) (s : ProxyState) (ch : Nat)
    (cs : ChannelState) (m : WireMsg) (rid : JsonId) (caller : Nat)
    (hch : s.channels ch = some cs) (hauth : cs.authenticated = true)
    (hjr : m.jsonrpc = some "2.0") (hid : m.id = some rid) (htr : rid.truthy = true)
    (hget : mapGet s.pendingProxyRequests rid = some caller) :
    onChannelMessage cfg s ch m =
      ({ s with pendingProxyRequests := mapDelete s.pendingProxyRequests rid },
       [Effect.resolveWith caller m]) := by
  unfold onChannelMessage
  rw [hch]
  simp [hauth, hjr, hid, idTruthy, htr, hget]

theorem onChannelMessage_reply_missing (cfg : Config) (s : ProxyState) (ch : Nat)
    (cs : ChannelState) (m : WireMsg) (rid : JsonId)
    (hch : s.channels ch = some cs) (hauth : cs.authenticated = true)
    (hjr : m.jsonrpc = some "2.0") (hid : m.id = some rid) (htr : rid.truthy = true)
    (hget : mapGet s.pendingProxyRequests rid = none) :
    onChannelMessage cfg s ch m =
      (s, [Effect.logMsg "Received response for unknown request id"]) := by
  unfold onChannelMessage
  rw [hch]
  simp [hauth, hjr, hid, idTruthy, htr, hget]

/-- Claim C2: a reply from the authenticated worker carrying correlation id
`rid` removes and resolves exactly the Pending Invocation registered under
`rid`: the resolved continuation receives the inbound message itself,
verbatim, and every entry registered under a different identifier is left
exactly as it was. -/
theorem c2_correlation_verbatim (cfg : Config) (s : ProxyState) (ch : Nat)
    (cs : ChannelState) (m : WireMsg) (rid : JsonId) (caller : Nat)
    (hch : s.channels ch = some cs) (hauth : cs.authenticated = true)
    (hjr : m.jsonrpc = some "2.0") (hid : m.id = some rid) (htr : rid.truthy = true)
    (hget : mapGet s.pendingProxyRequests rid = some caller) :
    onChannelMessage cfg s ch m =
      ({ s with pendingProxyRequests := mapDelete s.pendingProxyRequests rid },
       [Effect.resolveWith caller m]) ∧
    mapGet (mapDelete s.pendingProxyRequests rid) rid = none ∧
    (∀ rid2, rid2 ≠ rid →
      mapGet (mapDelete s.pendingProxyRequests rid) rid2 =
        mapGet s.pendingProxyRequests rid2) :=
  ⟨onChannelMessage_reply_found cfg s ch cs m rid caller hch hauth hjr hid htr hget,
   mapGet_mapDelete_self _ _,
   fun _ h => mapGet_mapDelete_ne _ _ _ h⟩

/-- Witness for C2: in the concrete state `s7`, the reply `replyX` from the
authenticated channel 1 resolves caller 5 with the message itself and
empties the pending map. -/
theorem c2_correlation_verbatim_witness :
    onChannelMessage cfgC s7 1 replyX =
      ({ s7 with pendingProxyRequests := mapDelete s7.pendingProxyRequests (JsonId.str "x") },
       [Effect.resolveWith 5 replyX]) ∧
    mapGet (mapDelete s7.pendingProxyRequests (JsonId.str "x")) (JsonId.str "x") = none ∧
    (∀ rid2, rid2 ≠ JsonId.str "x" →
      mapGet (mapDelete s7.pendingProxyRequests (JsonId.str "x")) rid2 =
        mapGet s7.pendingProxyRequests rid2) :=
  c2_correlation_verbatim cfgC s7 1 authedChannel replyX (JsonId.str "x") 5
    (by decide) rfl rfl rfl (by decide) (by decide)

/-- Claim C3: a Pending Invocation is removed exactly once, by whichever of
the matching reply and the 5-minute timeout comes first.  Reply first: the
entry is removed and resolved, and the later timer firing changes nothing
and rejects nobody.  Timeout first: the entry is removed and rejected with
"Proxy request timeout", and a reply later bearing the same identifier is
discarded with only a log, leaving the state and every other pending entry
untouched. -/
theorem c3_removal_exactly_once (cfg : Config) (s : ProxyState) (ch : Nat)
    (cs : ChannelState) (m : WireMsg) (rid : JsonId) (caller other : Nat)
    (hch : s.channels ch = some cs) (hauth : cs.authenticated = true)
    (hjr : m.jsonrpc = some "2.0") (hid : m.id = some rid) (htr : rid.truthy = true)
    (hget : mapGet s.pendingProxyRequests rid = some caller) :
    (onChannelMessage cfg s ch m =
      ({ s with pendingProxyRequests := mapDelete s.pendingProxyRequests rid },
       [Effect.resolveWith caller m])) ∧
    (onReplyTimerFire (onChannelMessage cfg s ch m).1 rid other =
      ((onChannelMessage cfg s ch m).1, [])) ∧
    (onReplyTimerFire s rid other =
      ({ s with pendingProxyRequests := mapDelete s.pendingProxyRequests rid },
       [Effect.rejectWith other "Proxy request timeout"])) ∧
    (onChannelMessage cfg (onReplyTimerFire s rid other).1 ch m =
      ((onReplyTimerFire s rid other).1,
       [Effect.logMsg "Received response for unknown request id"])) ∧
    (∀ rid2, rid2 ≠ rid →
      mapGet (onReplyTimerFire s rid other).1.pendingProxyRequests rid2 =
        mapGet s.pendingProxyRequests rid2) := by
  have hfound := onChannelMessage_reply_found cfg s ch cs m rid caller hch hauth hjr hid htr hget
  have htimer : onReplyTimerFire s rid other =
      ({ s with pendingProxyRequests := mapDelete s.pendingProxyRequests rid },
       [Effect.rejectWith other "Proxy request timeout"]) := by
    simp [onReplyTimerFire, mapHas_of_get _ _ _ hget]
  refine ⟨hfound, ?_, htimer, ?_, ?_⟩
  · rw [hfound]
    simp [onReplyTimerFire, mapHas_delete_self]
  · rw [htimer]
    exact onChannelMessage_reply_missing cfg _ ch cs m rid hch hauth hjr hid htr
      (mapGet_mapDelete_self _ _)
  · intro rid2 h
    rw [htimer]
    exact mapGet_mapDelete_ne _ _ _ h

/-- Witness for C3: the same concrete scenario as C2, with a timeout
continuation token 9, exercised on both orders of reply and timeout. -/
theorem c3_removal_exactly_once_witness :
    (onChannelMessage cfgC s7 1 replyX =
      ({ s7 with pendingProxyRequests := mapDelete s7.pendingProxyRequests (JsonId.str "x") },
       [Effect.resolveWith 5 replyX])) ∧
    (onReplyTimerFire (onChannelMessage cfgC s7 1 replyX).1 (JsonId.str "x") 9 =
      ((onChannelMessage cfgC s7 1 replyX).1, [])) ∧
    (onReplyTimerFire s7 (JsonId.str "x") 9 =
      ({ s7 with pendingProxyRequests := mapDelete s7.pendingProxyRequests (JsonId.str "x") },
       [Effect.rejectWith 9 "Proxy request timeout"])) ∧
    (onChannelMessage cfgC (onReplyTimerFire s7 (JsonId.str "x") 9).1 1 replyX =
      ((onReplyTimerFire s7 (JsonId.str "x") 9).1,
       [Effect.logMsg "Received response for unknown request id"])) ∧
    (∀ rid2, rid2 ≠ JsonId.str "x" →
      mapGet (onReplyTimerFire s7 (JsonId.str "x") 9).1.pendingProxyRequests rid2 =
        mapGet s7.pendingProxyRequests rid2) :=
  c3_removal_exactly_once cfgC s7 1 authedChannel replyX (JsonId.str "x") 5 9
    (by decide) rfl rfl rfl (by decide) (by decide)

/-- Counterexample to claim C6: in the concrete state `s6` (active channel
0 open and authenticated, caller 7 pending under id "r1"), the channel
error event — the only place a write-time network error surfaces on the
dispatcher — rejects no continuation and leaves the pending entry in the
map; the caller is rejected only when the 5-minute timer fires.  So a
network error while writing is not an immediate relay failure. -/
theorem c6_counterexample :
    hasReject (step cfgC s6 (Event.errorEvt 0)).2 = false ∧
    (step cfgC s6 (Event.errorEvt 0)).1.pendingProxyRequests = s6.pendingProxyRequests ∧
    mapGet (step cfgC s6 (Event.errorEvt 0)).1.pendingProxyRequests (JsonId.str "r1") =
      some 7 ∧
    (onReplyTimerFire (step cfgC s6 (Event.errorEvt 0)).1 (JsonId.str "r1") 7).2 =
      [Effect.rejectWith 7 "Proxy request timeout"] := by
  decide

/-- Claim C6 (amended): a network error on a worker channel is only logged
by the dispatcher's error handler; it neither rejects nor resolves any
caller's continuation and leaves the state untouched, so the caller's
continuation is not failed at once and is instead rejected only by its own
5-minute timer with "Proxy request timeout" (retry never happens, which
matches the claim's no-silent-retry part). -/
theorem c6_write_error_amended (cfg : Config) (s : ProxyState) (ch : Nat)
    (rid : JsonId) (caller : Nat)
    (hget : mapGet s.pendingProxyRequests rid = some caller) :
    (step cfg s (Event.errorEvt ch)).1 = s ∧
    hasReject (step cfg s (Event.errorEvt ch)).2 = false ∧
    hasResolve (step cfg s (Event.errorEvt ch)).2 = false ∧
    onReplyTimerFire s rid caller =
      ({ s with pendingProxyRequests := mapDelete s.pendingProxyRequests rid },
       [Effect.rejectWith caller "Proxy request timeout"]) := by
  refine ⟨rfl, rfl, rfl, ?_⟩
  simp [onReplyTimerFire, mapHas_of_get _ _ _ hget]

/-- Witness for the amended C6, at the concrete state `s6`. -/
theorem c6_write_error_amended_witness :
    (step cfgC s6 (Event.errorEvt 0)).1 = s6 ∧
    hasReject (step cfgC s6 (Event.errorEvt 0)).2 = false ∧
    hasResolve (step cfgC s6 (Event.errorEvt 0)).2 = false ∧
    onReplyTimerFire s6 (JsonId.str "r1") 7 =
      ({ s6 with pendingProxyRequests := mapDelete s6.pendingProxyRequests (JsonId.str "r1") },
       [Effect.rejectWith 7 "Proxy request timeout"]) :=
  c6_write_error_amended cfgC s6 0 (JsonId.str "r1") 7 (by decide)

/-- Counterexample to claim C7: in the concrete state `s7`, channel 0 is
authenticated but superseded (close code 4001 recorded, socket closing)
and is not the active channel — yet its reply `replyX` still removes and
resolves the Pending Invocation under "x".  So a reply from a channel
other than the active one can resolve pending invocations. -/
theorem c7_counterexample :
    s7.connectedSlaveWs ≠ some 0 ∧
    closedSuperseded s7 0 = true ∧
    (onChannelMessage cfgC s7 0 replyX).2 = [Effect.resolveWith 5 replyX] ∧
    mapGet (onChannelMessage cfgC s7 0 replyX).1.pendingProxyRequests (JsonId.str "x") =
      none := by
  decide

/-- Claim C7 (amended): the dispatcher matches replies against the pending
map based solely on the sending channel's own authenticated flag: a reply
from any authenticated channel — including a superseded one whose socket
is not yet fully closed — removes and resolves the pending invocation it
names, while messages from unauthenticated channels never resolve one. -/
theorem c7_reply_channel_amended :
    (∀ (cfg : Config) (s : ProxyState) (ch : Nat) (cs : ChannelState) (m : WireMsg)
        (rid : JsonId) (caller : Nat),
      s.channels ch = some cs → cs.authenticated = true →
      s.connectedSlaveWs ≠ some ch →
      m.jsonrpc = some "2.0" → m.id = some rid → rid.truthy = true →
      mapGet s.pendingProxyRequests rid = some caller →
      onChannelMessage cfg s ch m =
        ({ s with pendingProxyRequests := mapDelete s.pendingProxyRequests rid },
         [Effect.resolveWith caller m])) ∧
    (∀ (cfg : Config) (s : ProxyState) (ch : Nat) (cs : ChannelState) (m : WireMsg),
      s.channels ch = some cs → cs.authenticated = false →
      hasResolve (onChannelMessage cfg s ch m).2 = false) := by
  constructor
  · intro cfg s ch cs m rid caller hch hauth _ hjr hid htr hget
    exact onChannelMessage_reply_found cfg s ch cs m rid caller hch hauth hjr hid htr hget
  · intro cfg s ch cs m hch hauth
    unfold onChannelMessage
    rw [hch]
    by_cases h1 : (m.type == some "auth" && strTruthy m.slaveCode) = true
    · by_cases h2 : m.slaveCode.getD "" ∈ cfg.slaveCodes
      · simp [hauth, h1, h2, hasResolve]
      · simp [hauth, h1, h2, hasResolve]
    · simp [hauth, h1, hasResolve]

/-- Witness for the amended C7: both conjuncts exercised, the first on the
superseded-but-authenticated channel 0 of `s7`, the second on a freshly
connected, unauthenticated channel 3. -/
theorem c7_reply_channel_amended_witness :
    onChannelMessage cfgC s7 0 replyX =
      ({ s7 with pendingProxyRequests := mapDelete s7.pendingProxyRequests (JsonId.str "x") },
       [Effect.resolveWith 5 replyX]) ∧
    hasResolve (onChannelMessage cfgC (onConnection initState 3) 3 replyX).2 = false :=
  ⟨c7_reply_channel_amended.1 cfgC s7 0 (supersededOf authedChannel) replyX
      (JsonId.str "x") 5 (by decide) (by decide) (by decide) rfl rfl (by decide) (by decide),
   c7_reply_channel_amended.2 cfgC (onConnection initState 3) 3 freshChannel replyX
      (by decide) (by decide)⟩

theorem reconnectDelays_cons_sched (ms : Nat) (rest : List SlaveEffect) :
    reconnectDelays (SlaveEffect.scheduleReconnect ms :: rest) =
      ms :: reconnectDelays rest := rfl

/-- Claim C8: every close of the worker's channel — whatever caused it —
makes the close handler null the client reference and schedule exactly one
reconnect after a fixed 5000 ms delay, with no state-dependent backoff; an
auth_failed rejection makes the worker close its own channel (which then
triggers that same close path); and over any number n of closes the
scheduled delays are exactly n copies of 5000 — no growth, no cap. -/
theorem c8_reconnect_fixed_delay (code : String) (toolNames : List String)
    (runTool : String → String → Except String String) :
    (∀ s : SlaveState, slaveStep code toolNames runTool s SlaveEvent.closedEvt =
      ({ wsConnected := false }, [SlaveEffect.scheduleReconnect 5000])) ∧
    (∀ (s : SlaveState) (sc jr mth : Option String) (pa : Option ParamsObj)
        (i : Option JsonId) (pay : String),
      slaveStep code toolNames runTool s
        (SlaveEvent.msgEvt
          { type := some "auth_failed", slaveCode := sc, jsonrpc := jr, method := mth,
            params := pa, id := i, payload := pay }) = (s, [SlaveEffect.closeSelf])) ∧
    (∀ (n : Nat) (s : SlaveState),
      reconnectDelays
          (slaveRun code toolNames runTool s (List.replicate n SlaveEvent.closedEvt)).2 =
        List.replicate n 5000) := by
  refine ⟨fun s => rfl, fun s sc jr mth pa i pay => by simp [slaveStep], ?_⟩
  intro n
  induction n with
  | zero => intro s; rfl
  | succ k ih =>
      intro s
      rw [List.replicate_succ]
      have hstep : slaveRun code toolNames runTool s
          (SlaveEvent.closedEvt :: List.replicate k SlaveEvent.closedEvt) =
        ((slaveRun code toolNames runTool { wsConnected := false }
            (List.replicate k SlaveEvent.closedEvt)).1,
         SlaveEffect.scheduleReconnect 5000 ::
           (slaveRun code toolNames runTool { wsConnected := false }
             (List.replicate k SlaveEvent.closedEvt)).2) := rfl
      rw [hstep, reconnectDelays_cons_sched, ih { wsConnected := false },
        List.replicate_succ]

theorem dispatchLocal_id (toolNames : List String)
    (runTool : String → String → Except String String)
    (method : String) (p : ParamsObj) (i : Option JsonId) :
    (dispatchLocal toolNames runTool method p i).id = i := by
  simp only [dispatchLocal]
  repeat' split
  all_goals rfl

theorem onConnection_channels_self (s : ProxyState) (ch : Nat) :
    (onConnection s ch).channels ch = some freshChannel := by
  simp [onConnection, setCh, freshChannel]

theorem onConnection_channels_ne (s : ProxyState) (ch k : Nat) (h : k ≠ ch) :
    (onConnection s ch).channels k = s.channels k := by
  simp [onConnection, setCh, h]

theorem authPair_supersede (cfg : Config) (s : ProxyState) (ch a : Nat)
    (code : String) (ocs : ChannelState)
    (hcode : code ≠ "") (hmem : code ∈ cfg.slaveCodes)
    (hact : s.connectedSlaveWs = some a) (hcha : ch ≠ a)
    (hocs : s.channels a = some ocs) (hopen : ocs.readyState = ReadyState.opened) :
    (onChannelMessage cfg (onConnection s ch) ch (authWire code)).1.connectedSlaveWs =
      some ch ∧
    (onChannelMessage cfg (onConnection s ch) ch (authWire code)).1.channels ch =
      some authedChannel ∧
    (onChannelMessage cfg (onConnection s ch) ch (authWire code)).1.channels a =
      some (supersededOf ocs) ∧
    (∀ k, k ≠ ch → k ≠ a →
      (onChannelMessage cfg (onConnection s ch) ch (authWire code)).1.channels k =
        s.channels k) ∧
    (onChannelMessage cfg (onConnection s ch) ch (authWire code)).1.pendingProxyRequests =
      s.pendingProxyRequests ∧
    (onChannelMessage cfg (onConnection s ch) ch (authWire code)).2 =
      [Effect.send ch OutMsg.authSuccess] := by
  have hane : a ≠ ch := fun h => hcha h.symm
  have hchan : (onConnection s ch).channels ch = some freshChannel :=
    onConnection_channels_self s ch
  refine ⟨?_, ?_, ?_, ?_, ?_, ?_⟩
  · unfold onChannelMessage
    rw [hchan]
    simp [freshChannel, authWire, strTruthy, hcode, hmem, onConnection, setCh, hane,
          hcha, hact, hocs, hopen, wsClose]
  · unfold onChannelMessage
    rw [hchan]
    simp [freshChannel, authWire, strTruthy, hcode, hmem, onConnection, setCh, hane,
          hcha, hact, hocs, hopen, wsClose, authedChannel]
  · unfold onChannelMessage
    rw [hchan]
    simp [freshChannel, authWire, strTruthy, hcode, hmem, onConnection, setCh, hane,
          hcha, hact, hocs, hopen, wsClose, supersededOf]
  · intro k hkch hka
    unfold onChannelMessage
    rw [hchan]
    simp [freshChannel, authWire, strTruthy, hcode, hmem, onConnection, setCh, hane,
          hcha, hact, hocs, hopen, wsClose, hkch, hka]
  · unfold onChannelMessage
    rw [hchan]
    simp [freshChannel, authWire, strTruthy, hcode, hmem, onConnection, setCh, hane,
          hcha, hact, hocs, hopen, wsClose]
  · unfold onChannelMessage
    rw [hchan]
    simp [freshChannel, authWire, strTruthy, hcode, hmem, onConnection, setCh, hane,
          hcha, hact, hocs, hopen, wsClose]

theorem authPair_noactive (cfg : Config) (s : ProxyState) (ch : Nat) (code : String)
    (hcode : code ≠ "") (hmem : code ∈ cfg.slaveCodes)
    (hact : s.connectedSlaveWs = none) :
    (onChannelMessage cfg (onConnection s ch) ch (authWire code)).1.connectedSlaveWs =
      some ch ∧
    (onChannelMessage cfg (onConnection s ch) ch (authWire code)).1.channels ch =
      some authedChannel ∧
    (∀ k, k ≠ ch →
      (onChannelMessage cfg (onConnection s ch) ch (authWire code)).1.channels k =
        s.channels k) ∧
    (onChannelMessage cfg (onConnection s ch) ch (authWire code)).1.pendingProxyRequests =
      s.pendingProxyRequests ∧
    (onChannelMessage cfg (onConnection s ch) ch (authWire code)).2 =
      [Effect.send ch OutMsg.authSuccess] := by
  have hchan : (onConnection s ch).channels ch = some freshChannel :=
    onConnection_channels_self s ch
  refine ⟨?_, ?_, ?_, ?_, ?_⟩
  · unfold onChannelMessage
    rw [hchan]
    simp [freshChannel, authWire, strTruthy, hcode, hmem, onConnection, setCh, hact]
  · unfold onChannelMessage
    rw [hchan]
    simp [freshChannel, authWire, strTruthy, hcode, hmem, onConnection, setCh, hact,
          authedChannel]
  · intro k hkch
    unfold onChannelMessage
    rw [hchan]
    simp [freshChannel, authWire, strTruthy, hcode, hmem, onConnection, setCh, hact, hkch]
  · unfold onChannelMessage
    rw [hchan]
    simp [freshChannel, authWire, strTruthy, hcode, hmem, onConnection, setCh, hact]
  · unfold onChannelMessage
    rw [hchan]
    simp [freshChannel, authWire, strTruthy, hcode, hmem, onConnection, setCh, hact]

theorem lastId_cons (p : Nat × String) (rest : List (Nat × String)) (h : rest ≠ []) :
    lastId (p :: rest) = lastId rest := by
  cases rest with
  | nil => exact absurd rfl h
  | cons q rs => simp [lastId, List.getLast?_cons_cons]

theorem dropLast_cons_of_ne_nil (p : Nat × String) (rest : List (Nat × String))
    (h : rest ≠ []) : (p :: rest).dropLast = p :: rest.dropLast := by
  cases rest with
  | nil => exact absurd rfl h
  | cons q rs => rfl

theorem closedSuperseded_of_channels (t : ProxyState) (ch : Nat) (ocs : ChannelState)
    (h : t.channels ch = some (supersededOf ocs)) : closedSuperseded t ch = true := by
  simp [closedSuperseded, h, supersededOf]

theorem authRun_inv (cfg : Config) :
    ∀ (pairs : List (Nat × String)) (s : ProxyState) (a : Nat) (acs : ChannelState),
    pairs ≠ [] →
    (pairs.map Prod.fst).Nodup →
    a ∉ pairs.map Prod.fst →
    (∀ p ∈ pairs, p.2 ≠ "" ∧ p.2 ∈ cfg.slaveCodes) →
    s.connectedSlaveWs = some a →
    s.channels a = some acs →
    acs.readyState = ReadyState.opened →
    (run cfg s (authEvents pairs)).1.connectedSlaveWs = some (lastId pairs) ∧
    (∃ lcs, (run cfg s (authEvents pairs)).1.channels (lastId pairs) = some lcs ∧
       lcs.readyState = ReadyState.opened) ∧
    closedSuperseded (run cfg s (authEvents pairs)).1 a = true ∧
    (∀ p ∈ pairs.dropLast, closedSuperseded (run cfg s (authEvents pairs)).1 p.1 = true) ∧
    (∀ k, k ≠ a → k ∉ pairs.map Prod.fst →
       (run cfg s (authEvents pairs)).1.channels k = s.channels k) ∧
    (run cfg s (authEvents pairs)).2 =
      pairs.map (fun p => Effect.send p.1 OutMsg.authSuccess) := by
  intro pairs
  induction pairs with
  | nil => intro s a acs hne; exact absurd rfl hne
  | cons p rest ih =>
      intro s a acs _ hnodup hanotin hvalid hact hacs hopen
      obtain ⟨ch, code⟩ := p
      have hcha : ch ≠ a := by
        intro h
        exact hanotin (by simp [h])
      have hcode := (hvalid (ch, code) (by simp)).1
      have hmem := (hvalid (ch, code) (by simp)).2
      obtain ⟨hS2act, hS2ch, hS2a, hS2frame, hS2pend, hS2eff⟩ :=
        authPair_supersede cfg s ch a code acs hcode hmem hact hcha hacs hopen
      have hrun : run cfg s (authEvents ((ch, code) :: rest)) =
          ((run cfg (onChannelMessage cfg (onConnection s ch) ch (authWire code)).1
              (authEvents rest)).1,
           (onChannelMessage cfg (onConnection s ch) ch (authWire code)).2 ++
             (run cfg (onChannelMessage cfg (onConnection s ch) ch (authWire code)).1
               (authEvents rest)).2) := rfl
      cases rest with
      | nil =>
          rw [hrun]
          refine ⟨hS2act, ⟨authedChannel, hS2ch, rfl⟩,
            closedSuperseded_of_channels _ _ acs hS2a, ?_, ?_, ?_⟩
          · intro q hq
            simp at hq
          · intro k hka hknot
            have hkch : k ≠ ch := by
              intro h
              exact hknot (by simp [h])
            simpa using hS2frame k hkch hka
          · simp [authEvents, run, hS2eff]
      | cons q rs =>
          have hrestne : (q :: rs : List (Nat × String)) ≠ [] := by simp
          have hmapcons : List.map Prod.fst ((ch, code) :: q :: rs) =
              ch :: List.map Prod.fst (q :: rs) := rfl
          have hcons := List.nodup_cons.mp (hmapcons ▸ hnodup)
          have hnodup' : ((q :: rs).map Prod.fst).Nodup := hcons.2
          have hchnotin : ch ∉ (q :: rs).map Prod.fst := hcons.1
          have hvalid' : ∀ p2 ∈ (q :: rs), p2.2 ≠ "" ∧ p2.2 ∈ cfg.slaveCodes := by
            intro p2 hp2
            exact hvalid p2 (by simp [hp2])
          obtain ⟨ihact, ihlast, ihcha, ihdrop, ihframe, iheff⟩ :=
            ih (onChannelMessage cfg (onConnection s ch) ch (authWire code)).1 ch
              authedChannel hrestne hnodup' hchnotin hvalid' hS2act hS2ch rfl
          have hana : a ∉ (q :: rs).map Prod.fst := by
            intro h
            exact hanotin (hmapcons ▸ List.mem_cons_of_mem ch h)
          have haka : a ≠ ch := fun h => hcha h.symm
          rw [hrun]
          refine ⟨?_, ?_, ?_, ?_, ?_, ?_⟩
          · rw [lastId_cons _ _ hrestne]
            exact ihact
          · rw [lastId_cons _ _ hrestne]
            exact ihlast
          · have : (run cfg (onChannelMessage cfg (onConnection s ch) ch
                (authWire code)).1 (authEvents (q :: rs))).1.channels a =
                some (supersededOf acs) := by
              rw [ihframe a haka hana]
              exact hS2a
            exact closedSuperseded_of_channels _ _ acs this
          · rw [dropLast_cons_of_ne_nil _ _ hrestne]
            intro p2 hp2
            rcases List.mem_cons.mp hp2 with h | h
            · subst h
              exact ihcha
            · exact ihdrop p2 h
          · intro k hka hknot
            have hkch : k ≠ ch := by
              intro h
              exact hknot (by simp [h])
            have hkrest : k ∉ (q :: rs).map Prod.fst := by
              intro h
              exact hknot (hmapcons ▸ List.mem_cons_of_mem ch h)
            rw [ihframe k hkch hkrest]
            exact hS2frame k hkch hka
          · rw [hS2eff, iheff]
            rfl

/-- Claim C1: at most one worker channel is active at any time.  For every
nonempty sequence of distinct channels each authenticating with a
whitelisted code, run from the dispatcher's startup state: the final
active reference names exactly the most recently authenticated channel,
every earlier channel in the sequence has been closed by the supersession
path (`ws.close(4001, 'New slave connected')` — the explicit "superseded"
close), and each authentication was acknowledged with exactly one
auth_success message to its channel. -/
theorem c1_single_active_worker (cfg : Config) (pairs : List (Nat × String))
    (hne : pairs ≠ [])
    (hnodup : (pairs.map Prod.fst).Nodup)
    (hvalid : ∀ p ∈ pairs, p.2 ≠ "" ∧ p.2 ∈ cfg.slaveCodes) :
    (run cfg initState (authEvents pairs)).1.connectedSlaveWs = some (lastId pairs) ∧
    (∀ p ∈ pairs.dropLast,
      closedSuperseded (run cfg initState (authEvents pairs)).1 p.1 = true) ∧
    (run cfg initState (authEvents pairs)).2 =
      pairs.map (fun p => Effect.send p.1 OutMsg.authSuccess) := by
  cases pairs with
  | nil => exact absurd rfl hne
  | cons p rest =>
      obtain ⟨ch, code⟩ := p
      have hcode := (hvalid (ch, code) (by simp)).1
      have hmem := (hvalid (ch, code) (by simp)).2
      obtain ⟨hS2act, hS2ch, hS2frame, hS2pend, hS2eff⟩ :=
        authPair_noactive cfg initState ch code hcode hmem rfl
      have hrun : run cfg initState (authEvents ((ch, code) :: rest)) =
          ((run cfg (onChannelMessage cfg (onConnection initState ch) ch (authWire code)).1
              (authEvents rest)).1,
           (onChannelMessage cfg (onConnection initState ch) ch (authWire code)).2 ++
             (run cfg (onChannelMessage cfg (onConnection initState ch) ch (authWire code)).1
               (authEvents rest)).2) := rfl
      cases rest with
      | nil =>
          rw [hrun]
          refine ⟨hS2act, ?_, ?_⟩
          · intro q hq
            simp at hq
          · simp [authEvents, run, hS2eff]
      | cons q rs =>
          have hrestne : (q :: rs : List (Nat × String)) ≠ [] := by simp
          have hmapcons : List.map Prod.fst ((ch, code) :: q :: rs) =
              ch :: List.map Prod.fst (q :: rs) := rfl
          have hcons := List.nodup_cons.mp (hmapcons ▸ hnodup)
          have hvalid' : ∀ p2 ∈ (q :: rs), p2.2 ≠ "" ∧ p2.2 ∈ cfg.slaveCodes := by
            intro p2 hp2
            exact hvalid p2 (by simp [hp2])
          obtain ⟨ihact, ihlast, ihcha, ihdrop, ihframe, iheff⟩ :=
            authRun_inv cfg (q :: rs)
              (onChannelMessage cfg (onConnection initState ch) ch (authWire code)).1 ch
              authedChannel hrestne hcons.2 hcons.1 hvalid' hS2act hS2ch rfl
          rw [hrun]
          refine ⟨?_, ?_, ?_⟩
          · rw [lastId_cons _ _ hrestne]
            exact ihact
          · rw [dropLast_cons_of_ne_nil _ _ hrestne]
            intro p2 hp2
            rcases List.mem_cons.mp hp2 with h | h
            · subst h
              exact ihcha
            · exact ihdrop p2 h
          · rw [hS2eff, iheff]
            rfl

/-- Witness for C1: three workers authenticate in turn on channels 0, 1, 2
with whitelisted codes; afterwards channel 2 is the sole active one,
channels 0 and 1 carry the supersession close, and each got one
auth_success. -/
theorem c1_single_active_worker_witness :
    (run cfgC initState
        (authEvents [(0, "code1"), (1, "code2"), (2, "code1")])).1.connectedSlaveWs =
      some (lastId [(0, "code1"), (1, "code2"), (2, "code1")]) ∧
    (∀ p ∈ ([(0, "code1"), (1, "code2"), (2, "code1")] : List (Nat × String)).dropLast,
      closedSuperseded
          (run cfgC initState
            (authEvents [(0, "code1"), (1, "code2"), (2, "code1")])).1 p.1 = true) ∧
    (run cfgC initState (authEvents [(0, "code1"), (1, "code2"), (2, "code1")])).2 =
      ([(0, "code1"), (1, "code2"), (2, "code1")] : List (Nat × String)).map
        (fun p => Effect.send p.1 OutMsg.authSuccess) :=
  c1_single_active_worker cfgC [(0, "code1"), (1, "code2"), (2, "code1")]
    (by decide) (by decide) (by decide)

theorem wsClose_connectedSlaveWs (s : ProxyState) (ch code : Nat) (reason : String) :
    (wsClose s ch code reason).connectedSlaveWs = s.connectedSlaveWs := by
  unfold wsClose
  cases h : s.channels ch with
  | none => rfl
  | some cs => by_cases h2 : cs.readyState = ReadyState.opened <;> simp [h2]

theorem wsClose_pending (s : ProxyState) (ch code : Nat) (reason : String) :
    (wsClose s ch code reason).pendingProxyRequests = s.pendingProxyRequests := by
  unfold wsClose
  cases h : s.channels ch with
  | none => rfl
  | some cs => by_cases h2 : cs.readyState = ReadyState.opened <;> simp [h2]

theorem onAuthTimerFire_connectedSlaveWs (s : ProxyState) (ch : Nat) :
    (onAuthTimerFire s ch).connectedSlaveWs = s.connectedSlaveWs := by
  unfold onAuthTimerFire
  cases h : s.channels ch with
  | none => rfl
  | some cs =>
      by_cases h2 : (cs.authTimerArmed && !cs.authenticated) = true <;>
        simp [h2, wsClose_connectedSlaveWs]

theorem onAuthTimerFire_pending (s : ProxyState) (ch : Nat) :
    (onAuthTimerFire s ch).pendingProxyRequests = s.pendingProxyRequests := by
  unfold onAuthTimerFire
  cases h : s.channels ch with
  | none => rfl
  | some cs =>
      by_cases h2 : (cs.authTimerArmed && !cs.authenticated) = true <;>
        simp [h2, wsClose_pending]

theorem activeOpenWs_eq_connected (s : ProxyState) (ws : Nat)
    (h : activeOpenWs s = some ws) : s.connectedSlaveWs = some ws := by
  cases hc : s.connectedSlaveWs with
  | none => simp [activeOpenWs, hc] at h
  | some w =>
      cases hch : s.channels w with
      | none => simp [activeOpenWs, hc, hch] at h
      | some c =>
          by_cases h2 : c.readyState = ReadyState.opened
          · simp [activeOpenWs, hc, hch, h2] at h
            rw [h]
          · simp [activeOpenWs, hc, hch, h2] at h

theorem onChannelMessage_connected_cases (cfg : Config) (s : ProxyState) (c : Nat)
    (m : WireMsg) :
    (onChannelMessage cfg s c m).1.connectedSlaveWs = s.connectedSlaveWs ∨
    ((onChannelMessage cfg s c m).1.connectedSlaveWs = some c ∧
      isValidAuthFrom cfg c (Event.message c m) = true) := by
  unfold onChannelMessage
  cases h : s.channels c with
  | none => exact Or.inl rfl
  | some cs =>
      by_cases hauth : cs.authenticated = true
      · left
        simp only [hauth, Bool.not_true]
        by_cases h1 : (m.jsonrpc == some "2.0" && idTruthy m.id) = true
        · simp only [h1]
          cases h2 : mapGet s.pendingProxyRequests (m.id.getD (JsonId.num 0)) <;> simp [h2]
        · simp [h1]
      · have hauth' : cs.authenticated = false := by
          cases hval : cs.authenticated
          · rfl
          · exact absurd hval hauth
        by_cases h1 : (m.type == some "auth" && strTruthy m.slaveCode) = true
        · by_cases h2 : m.slaveCode.getD "" ∈ cfg.slaveCodes
          · right
            constructor
            · simp [hauth', h1, h2]
            · have hb := Bool.and_eq_true_iff.mp h1
              simp [isValidAuthFrom, hb.1, hb.2, h2]
          · left
            simp [hauth', h1, h2, wsClose_connectedSlaveWs]
        · left
          simp [hauth', h1, wsClose_connectedSlaveWs]

theorem onChannelMessage_no_rpc_send (cfg : Config) (s : ProxyState) (c ch : Nat)
    (m : WireMsg) :
    ∀ eff ∈ (onChannelMessage cfg s c m).2, isRpcSendTo ch eff = false := by
  unfold onChannelMessage
  cases h : s.channels c with
  | none => simp
  | some cs =>
      by_cases hauth : cs.authenticated = true
      · simp only [hauth, Bool.not_true]
        by_cases h1 : (m.jsonrpc == some "2.0" && idTruthy m.id) = true
        · simp only [h1]
          cases h2 : mapGet s.pendingProxyRequests (m.id.getD (JsonId.num 0)) <;>
            simp [h2, isRpcSendTo]
        · simp [h1]
      · have hauth' : cs.authenticated = false := by
          cases hval : cs.authenticated
          · rfl
          · exact absurd hval hauth
        by_cases h1 : (m.type == some "auth" && strTruthy m.slaveCode) = true
        · by_cases h2 : m.slaveCode.getD "" ∈ cfg.slaveCodes
          · simp [hauth', h1, h2, isRpcSendTo]
          · simp [hauth', h1, h2, isRpcSendTo]
        · simp [hauth', h1]

theorem onChannelClose_connected_cases (s : ProxyState) (c : Nat) :
    (onChannelClose s c).connectedSlaveWs = none ∨
    (onChannelClose s c).connectedSlaveWs = s.connectedSlaveWs := by
  unfold onChannelClose
  cases h : s.channels c with
  | none => exact Or.inr rfl
  | some cs =>
      by_cases h2 : s.connectedSlaveWs = some c
      · left
        simp [h2]
      · right
        simp [h2]

theorem dispatchProxy_connectedSlaveWs (cfg : Config) (s : ProxyState)
    (mth : String) (p : Option ParamsObj) (id : Option JsonId) (f : String) (cal : Nat) :
    (dispatchProxy cfg s mth p id f cal).1.connectedSlaveWs = s.connectedSlaveWs := by
  unfold dispatchProxy
  cases h : activeOpenWs s with
  | none => by_cases h2 : cfg.proxyMode = true <;> simp [h2]
  | some ws => by_cases h2 : cfg.proxyMode = true <;> simp [h2]

theorem step_not_auth_preserves (cfg : Config) (ch : Nat) (s : ProxyState) (e : Event)
    (hP : s.connectedSlaveWs ≠ some ch) (hno : isValidAuthFrom cfg ch e = false) :
    (step cfg s e).1.connectedSlaveWs ≠ some ch ∧
    (∀ eff ∈ (step cfg s e).2, isRpcSendTo ch eff = false) := by
  cases e with
  | connect c =>
      refine ⟨hP, ?_⟩
      intro eff heff
      simp [step] at heff
  | message c m =>
      constructor
      · rcases onChannelMessage_connected_cases cfg s c m with h | h
        · show (onChannelMessage cfg s c m).1.connectedSlaveWs ≠ some ch
          rw [h]
          exact hP
        · show (onChannelMessage cfg s c m).1.connectedSlaveWs ≠ some ch
          rw [h.1]
          intro hceq
          have hc : c = ch := by injection hceq
          subst hc
          exact absurd (h.2.symm.trans hno) (by simp)
      · intro eff heff
        exact onChannelMessage_no_rpc_send cfg s c ch m eff heff
  | authTimer c =>
      refine ⟨?_, ?_⟩
      · show (onAuthTimerFire s c).connectedSlaveWs ≠ some ch
        rw [onAuthTimerFire_connectedSlaveWs]
        exact hP
      · intro eff heff
        simp [step] at heff
  | closeEvt c =>
      refine ⟨?_, ?_⟩
      · show (onChannelClose s c).connectedSlaveWs ≠ some ch
        rcases onChannelClose_connected_cases s c with h | h
        · rw [h]; simp
        · rw [h]; exact hP
      · intro eff heff
        simp [step] at heff
  | errorEvt c =>
      refine ⟨hP, ?_⟩
      intro eff heff
      simp [step, onChannelError] at heff
      rw [heff]
      rfl
  | dispatch mth p id f cal =>
      refine ⟨?_, ?_⟩
      · show (dispatchProxy cfg s mth p id f cal).1.connectedSlaveWs ≠ some ch
        rw [dispatchProxy_connectedSlaveWs]
        exact hP
      · intro eff heff
        show isRpcSendTo ch eff = false
        have heff' : eff ∈ (dispatchProxy cfg s mth p id f cal).2 := heff
        unfold dispatchProxy at heff'
        cases h : activeOpenWs s with
        | none =>
            rw [h] at heff'
            by_cases h2 : cfg.proxyMode = true
            · simp [h2] at heff'
              rw [heff']
              rfl
            · simp [h2] at heff'
        | some ws =>
            have hws : ws ≠ ch := by
              intro hws
              exact hP (hws ▸ activeOpenWs_eq_connected s ws h)
            rw [h] at heff'
            by_cases h2 : cfg.proxyMode = true <;> simp [h2] at heff'
            rcases heff' with h3 | h3 <;> rw [h3] <;> simp [isRpcSendTo, hws]
  | replyTimer rid cal =>
      refine ⟨?_, ?_⟩
      · show (onReplyTimerFire s rid cal).1.connectedSlaveWs ≠ some ch
        unfold onReplyTimerFire
        by_cases h2 : mapHas s.pendingProxyRequests rid = true <;> simp [h2] <;> exact hP
      · intro eff heff
        have heff' : eff ∈ (onReplyTimerFire s rid cal).2 := heff
        unfold onReplyTimerFire at heff'
        by_cases h2 : mapHas s.pendingProxyRequests rid = true <;> simp [h2] at heff'
        rw [heff']
        rfl

theorem run_never_active (cfg : Config) (ch : Nat) :
    ∀ (evs : List Event) (s : ProxyState),
    s.connectedSlaveWs ≠ some ch →
    (∀ e ∈ evs, isValidAuthFrom cfg ch e = false) →
    (run cfg s evs).1.connectedSlaveWs ≠ some ch ∧
    (∀ eff ∈ (run cfg s evs).2, isRpcSendTo ch eff = false) := by
  intro evs
  induction evs with
  | nil =>
      intro s hP _
      exact ⟨hP, by intro eff heff; simp [run] at heff⟩
  | cons e rest ih =>
      intro s hP hno
      have h1 := step_not_auth_preserves cfg ch s e hP (hno e (by simp))
      have h2 := ih (step cfg s e).1 h1.1 (fun e2 he2 => hno e2 (by simp [he2]))
      refine ⟨h2.1, ?_⟩
      intro eff heff
      have heff' : eff ∈ (step cfg s e).2 ++ (run cfg (step cfg s e).1 rest).2 := heff
      rcases List.mem_append.mp heff' with h | h
      · exact h1.2 eff h
      · exact h2.2 eff h

/-- Claim C5: a channel whose 10-second authentication timer fires while it
is still unauthenticated is closed with the explicit reason
`(4000, "Authentication timeout")`, touching neither the active-connection
reference nor the pending map; and over any event run from startup in
which a channel never sends a whitelisted authentication message, that
channel never becomes the active connection and no relayed invocation is
ever written to it. -/
theorem c5_auth_timeout (cfg : Config) :
    (∀ (s : ProxyState) (ch : Nat) (cs : ChannelState),
      s.channels ch = some cs → cs.authenticated = false →
      cs.authTimerArmed = true → cs.readyState = ReadyState.opened →
      (onAuthTimerFire s ch).channels ch =
        some ({ cs with
                readyState := ReadyState.closingWs,
                closeInfo := some (4000, "Authentication timeout") }) ∧
      (onAuthTimerFire s ch).connectedSlaveWs = s.connectedSlaveWs ∧
      (onAuthTimerFire s ch).pendingProxyRequests = s.pendingProxyRequests) ∧
    (∀ (evs : List Event) (ch : Nat),
      (∀ e ∈ evs, isValidAuthFrom cfg ch e = false) →
      (run cfg initState evs).1.connectedSlaveWs ≠ some ch ∧
      (∀ eff ∈ (run cfg initState evs).2, isRpcSendTo ch eff = false)) := by
  constructor
  · intro s ch cs hch hauth harm hopen
    refine ⟨?_, onAuthTimerFire_connectedSlaveWs s ch, onAuthTimerFire_pending s ch⟩
    unfold onAuthTimerFire
    rw [hch]
    simp [hauth, harm, wsClose, hch, hopen, setCh]
  · intro evs ch hno
    exact run_never_active cfg ch evs initState (by simp [initState]) hno

/-- Witness for C5: a channel connects on id 0, tries a non-whitelisted
code, and its auth timer fires; the channel is closed with reason 4000 and
it never became active, with no invocation sent to it. -/
theorem c5_auth_timeout_witness :
    ((onAuthTimerFire (onConnection initState 0) 0).channels 0 =
      some ({ freshChannel with
              readyState := ReadyState.closingWs,
              closeInfo := some (4000, "Authentication timeout") }) ∧
     (onAuthTimerFire (onConnection initState 0) 0).connectedSlaveWs =
       (onConnection initState 0).connectedSlaveWs ∧
     (onAuthTimerFire (onConnection initState 0) 0).pendingProxyRequests =
       (onConnection initState 0).pendingProxyRequests) ∧
    ((run cfgC initState
        [Event.connect 0, Event.message 0 (authWire "bad"),
         Event.authTimer 0]).1.connectedSlaveWs ≠ some 0 ∧
     (∀ eff ∈ (run cfgC initState
        [Event.connect 0, Event.message 0 (authWire "bad"),
         Event.authTimer 0]).2, isRpcSendTo 0 eff = false)) :=
  ⟨(c5_auth_timeout cfgC).1 (onConnection initState 0) 0 freshChannel
      (by decide) rfl rfl rfl,
   (c5_auth_timeout cfgC).2
      [Event.connect 0, Event.message 0 (authWire "bad"), Event.authTimer 0] 0
      (by decide)⟩

/-- Claim C10: when the front end supplies a falsy JSON-RPC id (the number
0 or the empty string), the dispatcher forwards the invocation under a
freshly generated UUID instead: the pending entry and the serialized
request both carry `JsonId.str fresh`, the slave's locally computed
response echoes that generated id, a reply bearing it resolves the
original caller with the reply message itself — whose id is the generated
one — and the generated id differs from the id the caller supplied. -/
theorem c10_falsy_id_uuid (cfg : Config) (s : ProxyState) (ws : Nat)
    (wcs : ChannelState) (method : String) (params : Option ParamsObj)
    (id : Option JsonId) (fresh : String) (caller : Nat) (toolNames : List String)
    (runTool : String → String → Except String String) (pObj : ParamsObj)
    (hproxy : cfg.proxyMode = true) (hact : s.connectedSlaveWs = some ws)
    (hwcs : s.channels ws = some wcs) (hopen : wcs.readyState = ReadyState.opened)
    (hauth : wcs.authenticated = true)
    (hfalsy : idTruthy id = false) (hfresh : fresh ≠ "") :
    step cfg s (Event.dispatch method params id fresh caller) =
      ({ s with
         pendingProxyRequests := mapSet s.pendingProxyRequests (JsonId.str fresh) caller },
       [Effect.send ws (OutMsg.rpcRequest method params (JsonId.str fresh)),
        Effect.armReplyTimer (JsonId.str fresh) 300000]) ∧
    (dispatchLocal toolNames runTool method pObj (some (JsonId.str fresh))).id =
      some (JsonId.str fresh) ∧
    (∀ m : WireMsg, m.jsonrpc = some "2.0" → m.id = some (JsonId.str fresh) →
      onChannelMessage cfg
          ({ s with
             pendingProxyRequests := mapSet s.pendingProxyRequests (JsonId.str fresh) caller })
          ws m =
        ({ s with
           pendingProxyRequests :=
             mapDelete (mapSet s.pendingProxyRequests (JsonId.str fresh) caller)
               (JsonId.str fresh) },
         [Effect.resolveWith caller m]) ∧ m.id ≠ id) ∧
    id ≠ some (JsonId.str fresh) := by
  have hao : activeOpenWs s = some ws := by
    simp [activeOpenWs, hact, hwcs, hopen]
  have hne : id ≠ some (JsonId.str fresh) := by
    intro h
    rw [h] at hfalsy
    simp [idTruthy, JsonId.truthy, hfresh] at hfalsy
  have htr : (JsonId.str fresh).truthy = true := by
    simp [JsonId.truthy, hfresh]
  refine ⟨?_, dispatchLocal_id toolNames runTool method pObj (some (JsonId.str fresh)),
    ?_, hne⟩
  · simp [step, dispatchProxy, hao, hproxy, hfalsy]
  · intro m hjr hid
    refine ⟨?_, by rw [hid]; exact fun h => hne h.symm⟩
    exact onChannelMessage_reply_found cfg _ ws wcs m (JsonId.str fresh) caller
      hwcs hauth hjr hid htr (mapGet_mapSet_self _ _ _)

/-- Witness for C10: dispatching with the falsy id 0 from the concrete
state `s6` substitutes the UUID "uuid-1" end to end. -/
theorem c10_falsy_id_uuid_witness :
    step cfgC s6 (Event.dispatch "tools/list" none (some (JsonId.num 0)) "uuid-1" 42) =
      ({ s6 with
         pendingProxyRequests := mapSet s6.pendingProxyRequests (JsonId.str "uuid-1") 42 },
       [Effect.send 0 (OutMsg.rpcRequest "tools/list" none (JsonId.str "uuid-1")),
        Effect.armReplyTimer (JsonId.str "uuid-1") 300000]) ∧
    (dispatchLocal ["review_merge_request"] (fun _ _ => Except.ok "ok") "tools/list"
        { name := none, arguments := "" } (some (JsonId.str "uuid-1"))).id =
      some (JsonId.str "uuid-1") ∧
    (∀ m : WireMsg, m.jsonrpc = some "2.0" → m.id = some (JsonId.str "uuid-1") →
      onChannelMessage cfgC
          ({ s6 with
             pendingProxyRequests := mapSet s6.pendingProxyRequests (JsonId.str "uuid-1") 42 })
          0 m =
        ({ s6 with
           pendingProxyRequests :=
             mapDelete (mapSet s6.pendingProxyRequests (JsonId.str "uuid-1") 42)
               (JsonId.str "uuid-1") },
         [Effect.resolveWith 42 m]) ∧ m.id ≠ some (JsonId.num 0)) ∧
    some (JsonId.num 0) ≠ some (JsonId.str "uuid-1") :=
  c10_falsy_id_uuid cfgC s6 0 authedChannel "tools/list" none (some (JsonId.num 0))
    "uuid-1" 42 ["review_merge_request"] (fun _ _ => Except.ok "ok")
    { name := none, arguments := "" } rfl rfl (by decide) rfl rfl (by decide) (by decide)

/-- Claim C4: a method dispatch attempted in proxy mode with no open active
worker channel returns, synchronously within the dispatch step itself, the
JSON-RPC error -32000 "No slave server connected to proxy", leaving the
state (in particular the pending map) untouched: no Pending Invocation is
created, no reply timer is armed, nothing is queued. -/
theorem c4_no_slave_fail_fast (cfg : Config) (s : ProxyState) (method : String)
    (params : Option ParamsObj) (id : Option JsonId) (fresh : String) (caller : Nat)
    (hproxy : cfg.proxyMode = true) (hno : activeOpenWs s = none) :
    step cfg s (Event.dispatch method params id fresh caller) =
      (s, [Effect.immediateError caller (-32000) "No slave server connected to proxy" id]) := by
  simp [step, dispatchProxy, hno, hproxy]

/-- Witness for C4: dispatching "tools/list" in proxy mode from the startup
state (no slave ever connected) yields the immediate error effect. -/
theorem c4_no_slave_fail_fast_witness :
    step cfgC initState (Event.dispatch "tools/list" none (some (JsonId.num 7)) "u" 0) =
      (initState,
       [Effect.immediateError 0 (-32000) "No slave server connected to proxy"
         (some (JsonId.num 7))]) :=
  c4_no_slave_fail_fast cfgC initState "tools/list" none (some (JsonId.num 7)) "u" 0 rfl rfl

/-- Claim C9: when the active worker channel closes, the dispatcher clears
the active-connection reference, leaves the pending map unchanged, emits no
resolution or rejection, and each in-flight invocation still expires via
its own 5-minute timer with "Proxy request timeout". -/
theorem c9_close_clears_active_keeps_pending (cfg : Config) (s : ProxyState)
    (ch : Nat) (cs : ChannelState)
    (hact : s.connectedSlaveWs = some ch) (hch : s.channels ch = some cs) :
    (step cfg s (Event.closeEvt ch)).1.connectedSlaveWs = none ∧
    (step cfg s (Event.closeEvt ch)).1.pendingProxyRequests = s.pendingProxyRequests ∧
    (step cfg s (Event.closeEvt ch)).2 = [] ∧
    ∀ rid c caller, mapGet s.pendingProxyRequests rid = some c →
      (onReplyTimerFire (step cfg s (Event.closeEvt ch)).1 rid caller).2 =
        [Effect.rejectWith caller "Proxy request timeout"] ∧
      mapGet (onReplyTimerFire (step cfg s (Event.closeEvt ch)).1 rid caller).1.pendingProxyRequests
          rid = none := by
  have hstep : step cfg s (Event.closeEvt ch) = (onChannelClose s ch, []) := rfl
  have hclose :
      (onChannelClose s ch).connectedSlaveWs = none ∧
      (onChannelClose s ch).pendingProxyRequests = s.pendingProxyRequests := by
    unfold onChannelClose
    rw [hch]
    simp [hact]
  refine ⟨by rw [hstep]; exact hclose.1, by rw [hstep]; exact hclose.2, by rw [hstep], ?_⟩
  intro rid c caller hget
  have hpend : (step cfg s (Event.closeEvt ch)).1.pendingProxyRequests =
      s.pendingProxyRequests := by rw [hstep]; exact hclose.2
  have hhas : mapHas (step cfg s (Event.closeEvt ch)).1.pendingProxyRequests rid = true := by
    rw [hpend]; exact mapHas_of_get _ _ _ hget
  constructor
  · simp [onReplyTimerFire, hhas]
  · simp [onReplyTimerFire, hhas, mapGet_mapDelete_self]

/-- Witness for C9: closing the active channel of the concrete state `s6`
clears the reference, keeps the pending entry, and the later timer firing
rejects it with the timeout error. -/
theorem c9_close_clears_active_keeps_pending_witness :
    (step cfgC s6 (Event.closeEvt 0)).1.connectedSlaveWs = none ∧
    (step cfgC s6 (Event.closeEvt 0)).1.pendingProxyRequests = s6.pendingProxyRequests ∧
    (step cfgC s6 (Event.closeEvt 0)).2 = [] ∧
    ∀ rid c caller, mapGet s6.pendingProxyRequests rid = some c →
      (onReplyTimerFire (step cfgC s6 (Event.closeEvt 0)).1 rid caller).2 =
        [Effect.rejectWith caller "Proxy request timeout"] ∧
      mapGet (onReplyTimerFire (step cfgC s6 (Event.closeEvt 0)).1 rid caller).1.pendingProxyRequests
          rid = none :=
  c9_close_clears_active_keeps_pending cfgC s6 0 authedChannel rfl (by decide)

end MrPilot
